import Mathlib

/-!
Shallow embedding of the ZenithionMerchantBot core (Python sources under
`src/`) and verification of the frozen claims about it.

Python strings in the callback codec are modelled as `List Char` (a Python
`str` is a sequence of characters); elsewhere `String` is used with its
underlying character list where list reasoning is needed.  Python `None`
is modelled by `Option`.  Machine-level details (event loop, aiogram
transport) are modelled as explicit parameters: the outcome of a remote
HTTP call or of one Telegram send is passed in as data, mirroring exactly
the dispatch the Python handlers perform on it.
-/

namespace ZenithionBot

/-! ## Callback codec — `src/callbacks.py` -/

/-- The class attributes of `Cb` in `src/callbacks.py` (lines 6–13), as an
attribute-name → value table.  `getattr` on a missing attribute raises
`AttributeError`, modelled by `none`. -/
def cbAttrs : List (String × String) :=
  [("BALANCE", "balance"),
   ("PAYMENTS_LAST", "payments_last"),
   ("PAYMENTS_TODAY", "payments_today"),
   ("WITHDRAW", "withdraw"),
   ("CHECK_PAYMENT", "check_payment"),
   ("DELETE_MESSAGE", "delete_message"),
   ("CANCEL", "cancel")]

/-- Python attribute access `Cb.<a>`: the attribute's value, or `none`
(= `AttributeError`) when the class has no such attribute. -/
def cbAttr (a : String) : Option String :=
  (cbAttrs.find? (fun e => e.1 = a)).map Prod.snd

/-- Embeds `":".join(xs)` from `pack` in `src/callbacks.py` line 17, on character
lists: join the components with a single separator character. -/
def joinSep (sep : Char) : List (List Char) → List Char
  | [] => []
  | [x] => x
  | x :: y :: rest => x ++ sep :: joinSep sep (y :: rest)

/-- Embeds `data.split(":")` from `unpack` in `src/callbacks.py` line 21, on
character lists: Python `str.split(sep)` semantics, so
`splitSep ':' [] = [[]]` (Python: `"".split(":") == [""]`). -/
def splitSep (sep : Char) : List Char → List (List Char)
  | [] => [[]]
  | c :: cs =>
    let r := splitSep sep cs
    if c = sep then [] :: r else (c :: r.headD []) :: r.tail

/-- Embeds `pack(name, *args)` — `src/callbacks.py` lines 16–17:
`":".join([name, *args])`. -/
def pack (name : List Char) (args : List (List Char)) : List Char :=
  joinSep ':' (name :: args)

/-- Embeds `unpack(data)` — `src/callbacks.py` lines 20–22:
`parts = (data or "").split(":"); return parts[0], parts[1:]`. -/
def unpack (data : Option (List Char)) : List Char × List (List Char) :=
  let parts := splitSep ':' (data.getD [])
  (parts.headD [], parts.tail)

/-- Python `t.startswith(p)` on strings. -/
def pyStartswith (t p : String) : Bool :=
  p.data.isPrefixOf t.data

/-- Embeds `is_cb(data, name)` — `src/callbacks.py` lines 25–26:
`(data or "") == name`. -/
def isCb (data : Option String) (name : String) : Bool :=
  data.getD "" = name

/-- Embeds `is_cb_prefix(data, name)` — `src/callbacks.py` lines 29–31:
`(data or "").startswith(f"{name}:")`. -/
def isCbPrefixOf (data : Option String) (name : String) : Bool :=
  pyStartswith (data.getD "") (name ++ ":")

/-! ## Credential directory — `src/config.py` -/

/-- Embeds the loop body of `Config.get_api_token` (`src/config.py` lines
39–41): iterate the token table in insertion order and return the first
token whose identity list contains the user id. -/
def lookupLoop : List (String × List String) → String → Option String
  | [], _ => none
  | (tok, ids) :: rest, u => if u ∈ ids then some tok else lookupLoop rest u

/-- Embeds `Config.get_api_token` (`src/config.py` lines 34–43).  The token
table `Config.api_tokens` is a dict `token → list of user-id strings`,
modelled as an insertion-ordered association list.  Python's
`if not user_id: return None` treats both `None` and the empty string as
falsy. -/
def getApiToken (table : List (String × List String)) (userId : Option String) :
    Option String :=
  match userId with
  | none => none
  | some u => if u = "" then none else lookupLoop table u

/-- Embeds `bool(os.getenv("SKIP_VERIFY", False))` from `src/config.py`
line 15: an unset variable gives `bool(False) = False`; a set variable is
a string, truthy exactly when non-empty. -/
def configSkipVerify (env : Option String) : Bool :=
  match env with
  | none => false
  | some s => s != ""

/-! ## Merchant API client — `src/zenithionpay_client.py` -/

/-- Values produced by `json.loads`: a minimal JSON universe sufficient for
the payloads the handlers inspect. -/
inductive J
  | null
  | jbool (b : Bool)
  | num (n : Int)
  | str (s : String)
  | arr (xs : List J)
  | dict (fields : List (String × J))

/-- Body value carried by a response: the JSON-decoded value, or the raw
text body when `json.loads(body)` fails (`src/zenithionpay_client.py`
lines 56–59). -/
inductive HttpPayload
  | json (v : J)
  | raw (s : String)

/-- Embeds the response half of `_http_request_json`
(`src/zenithionpay_client.py` lines 48–59): given the received status and
body text, decode the body, falling back to the raw text.  `decode`
stands for the external `json.loads`. -/
def httpRequestJson (decode : String → Option J) (status : Nat) (body : String) :
    Nat × HttpPayload :=
  (status,
    match decode body with
    | some v => .json v
    | none => .raw body)

/-- Result of `get_json` / `post_json`: the returned payload, or the raised
`ZenithionPayApiError{status, payload}`. -/
inductive ApiResult
  | ok (payload : HttpPayload)
  | apiError (status : Nat) (payload : HttpPayload)

/-- Embeds the classification in `get_json` (`src/zenithionpay_client.py`
lines 92–97) and, identically, `post_json` (lines 119–124):
`if 200 <= int(status) <= 299: return payload` else raise
`ZenithionPayApiError(status, payload, url)`. -/
def getJson (decode : String → Option J) (status : Nat) (body : String) : ApiResult :=
  let r := httpRequestJson decode status body
  if 200 ≤ r.1 ∧ r.1 ≤ 299 then .ok r.2 else .apiError r.1 r.2

/-- How `urlopen`'s TLS context is chosen. -/
inductive SslMode
  | unverified
  | verified
deriving DecidableEq

/-- Python `s.lower()`. -/
def pyLower (s : String) : String := String.mk (s.data.map Char.toLower)

/-- Embeds the TLS-context choice of `_http_request_json`
(`src/zenithionpay_client.py` lines 43–46).  The source assigns the local
variable `skip_verify = True` unconditionally — `config.skip_verify` is
never read — and for an `https://` URL picks
`ssl._create_unverified_context()` when that local is true. -/
def sslContextFor (url : String) : Option SslMode :=
  let skip_verify := true
  if pyStartswith (pyLower url) "https://" then
    some (if skip_verify then .unverified else .verified)
  else
    none

/-! ## Handler-side call semantics — `src/handlers.py` -/

/-- The parameter names of `get_json` (`src/zenithionpay_client.py` lines
74–79): `endpoint`, `headers`, `timeout`, `params`. -/
def getJsonParamNames : List String := ["endpoint", "headers", "timeout", "params"]

/-- Python keyword-argument binding: a call is accepted only when every
keyword argument names a declared parameter; otherwise the call raises
`TypeError: got an unexpected keyword argument` before the callee runs. -/
def kwargsAccepted (kwargs : List String) : Bool :=
  kwargs.all (fun k => getJsonParamNames.contains k)

/-- The keyword arguments of the `get_json` call inside
`get_merchant_info_text` (`src/handlers.py` lines 43–49):
`timeout=5, cache_ttl=100, refresh=refresh`. -/
def getMerchantInfoKwargs : List String := ["timeout", "cache_ttl", "refresh"]

/-- What one `await get_json(...)` / `await post_json(...)` expression
evaluates to inside a handler's `try`: a value, a raised
`ZenithionPayApiError`, or any other exception (`TypeError`, transport
failure, …), matching the handlers' `except` clauses. -/
inductive CallOutcome
  | ok (payload : HttpPayload)
  | apiErr (status : Nat) (payload : HttpPayload)
  | otherErr

/-- Evaluates a `get_json` call carrying the given keyword-argument names,
against a remote that would answer with `status`/`body`: an unknown
keyword raises `TypeError` (→ `otherErr`) before any request is issued;
otherwise the call yields `get_json`'s result. -/
def callGetJson (kwargs : List String) (decode : String → Option J)
    (status : Nat) (body : String) : CallOutcome :=
  if kwargsAccepted kwargs then
    match getJson decode status body with
    | .ok p => .ok p
    | .apiError s p => .apiErr s p
  else .otherErr

/-- Embeds the call in `get_merchant_info_text` (`src/handlers.py` lines
42–49): `get_json("merchant/info", …, timeout=5, cache_ttl=100,
refresh=refresh)`. -/
def getMerchantInfoCall (decode : String → Option J) (status : Nat) (body : String) :
    CallOutcome :=
  callGetJson getMerchantInfoKwargs decode status body

/-- The message `start_handler` answers with. -/
inductive StartReply
  | summary (p : HttpPayload)
  | serviceUnavailable
  | requestErrorMsg

/-- Embeds `start_handler` (`src/handlers.py` lines 161–174): build and
send the account summary; on `ZenithionPayApiError` answer the
service-unavailable text for status ≥ 500 and the short request-error
text otherwise; on any other exception answer the service-unavailable
text. -/
def startHandler (decode : String → Option J) (status : Nat) (body : String) :
    StartReply :=
  match getMerchantInfoCall decode status body with
  | .ok p => .summary p
  | .apiErr s _ => if 500 ≤ s then .serviceUnavailable else .requestErrorMsg
  | .otherErr => .serviceUnavailable

/-! ## Conversation-state handlers — `src/handlers.py` -/

/-- The aiogram FSM states of `src/states.py`; `idle` is the cleared state
(`state.clear()` / no state set). -/
inductive ConvState
  | idle
  | awaitingPaymentQuery
  | awaitingWithdrawAddress
deriving DecidableEq

/-- Python `s.strip()`: drop whitespace from both ends. -/
def pyStrip (s : String) : String :=
  String.mk (((s.data.dropWhile Char.isWhitespace).reverse.dropWhile
    Char.isWhitespace).reverse)

/-- Replies the free-text handlers answer with (tags for the texts sent in
`src/handlers.py` lines 274–363). -/
inductive BotReply
  | promptResend
  | paymentDetails
  | paymentNotFound (value : String)
  | svcUnavailable
  | requestErrorWith (status : Nat)
  | invalidAddress
  | withdrawCreated (addr : String)
  | withdrawUnderMinimum
  | withdrawFailed

/-- The keyword arguments of the `get_json` call inside
`check_payment_input` (`src/handlers.py` lines 283–287): `cache_ttl=10`. -/
def checkPaymentKwargs : List String := ["cache_ttl"]

/-- Embeds `check_payment_input` (`src/handlers.py` lines 274–303) as a
function of the message text, the decode oracle, the response the remote
would give, and the current FSM state; returns the next FSM state and
the reply.  The dispatch mirrors the source's `try`/`except` structure:
the `e.status == 404` branch answers "не найден. Попробуйте еще раз" and
returns without `state.clear()` — but the embedded call passes the
keyword argument `cache_ttl`, which `get_json` does not accept, so the
call raises `TypeError` before any request and only the
`except Exception` branch is reachable. -/
def checkPaymentInput (text : Option String) (decode : String → Option J)
    (status : Nat) (body : String) (st : ConvState) : ConvState × BotReply :=
  let value := pyStrip (text.getD "")
  if value = "" then (st, .promptResend)
  else
    match callGetJson checkPaymentKwargs decode status body with
    | .ok _ => (.idle, .paymentDetails)
    | .apiErr s _ =>
      if s = 404 then (st, .paymentNotFound value) else (.idle, .svcUnavailable)
    | .otherErr => (.idle, .svcUnavailable)

/-- Character class of the TRON address regex body
`[1-9A-HJ-NP-Za-km-z]` (`src/handlers.py` line 58). -/
def isTronBodyChar (c : Char) : Bool :=
  ('1'.toNat ≤ c.toNat && c.toNat ≤ '9'.toNat) ||
  ('A'.toNat ≤ c.toNat && c.toNat ≤ 'H'.toNat) ||
  ('J'.toNat ≤ c.toNat && c.toNat ≤ 'N'.toNat) ||
  ('P'.toNat ≤ c.toNat && c.toNat ≤ 'Z'.toNat) ||
  ('a'.toNat ≤ c.toNat && c.toNat ≤ 'k'.toNat) ||
  ('m'.toNat ≤ c.toNat && c.toNat ≤ 'z'.toNat)

/-- Embeds `_TRON_ADDRESS_RE.fullmatch` with pattern
`^T[1-9A-HJ-NP-Za-km-z]{33}$` (`src/handlers.py` lines 58 and 319). -/
def tronAddressMatch (s : String) : Bool :=
  match s.data with
  | 'T' :: rest => rest.length == 33 && rest.all isTronBodyChar
  | _ => false

/-- Python `fields.get(key)` on a decoded JSON object. -/
def jGet (fields : List (String × J)) (key : String) : Option J :=
  (fields.find? (fun e => e.1 = key)).map Prod.snd

/-- Embeds the success-payload dispatch of `withdraw_input`
(`src/handlers.py` lines 347–360): `payload.get("success") is True`,
else `payload.get("status") == 'under_minimum_withdrawal_amount'`, else
the generic failure text; a non-dict payload is the generic failure. -/
def withdrawOutcomeReply (to_address : String) (p : HttpPayload) : BotReply :=
  match p with
  | .json (.dict fields) =>
    match jGet fields "success" with
    | some (.jbool true) => .withdrawCreated to_address
    | _ =>
      match jGet fields "status" with
      | some (.str s) =>
        if s = "under_minimum_withdrawal_amount" then .withdrawUnderMinimum
        else .withdrawFailed
      | _ => .withdrawFailed
  | _ => .withdrawFailed

/-- Embeds `withdraw_input` (`src/handlers.py` lines 316–363) as a function
of the message text, the evaluated `post_json` call and the current FSM
state.  An address failing the format check re-prompts and leaves the
state; every other path ends in `state.clear()`. -/
def withdrawInput (text : Option String) (call : CallOutcome) (st : ConvState) :
    ConvState × BotReply :=
  let to_address := pyStrip (text.getD "")
  if ¬ tronAddressMatch to_address then (st, .invalidAddress)
  else
    match call with
    | .apiErr s _ =>
      (.idle, if 500 ≤ s then .svcUnavailable else .requestErrorWith s)
    | .otherErr => (.idle, .svcUnavailable)
    | .ok p => (.idle, withdrawOutcomeReply to_address p)

/-! ## Callback-query dispatch — `register_handlers`, `src/handlers.py` -/

/-- The callback-query handlers registered in `register_handlers`
(`src/handlers.py` lines 399–427). -/
inductive CbHandler
  | deleteMessage
  | cancelHandler
  | infoHandler
  | paymentsHistory
  | withdrawPrompt
  | checkPaymentPrompt
deriving DecidableEq

/-- The callback-query routes of `register_handlers` in registration
order, each keyed by the `Cb` attribute its lambda filter reads
(`src/handlers.py` lines 399–427).  The cancel route reads
`Cb.BACK_TO_USER_MENU`. -/
def callbackRoutes : List (String × CbHandler) :=
  [("DELETE_MESSAGE", .deleteMessage),
   ("BACK_TO_USER_MENU", .cancelHandler),
   ("BALANCE", .infoHandler),
   ("PAYMENTS_LAST", .paymentsHistory),
   ("WITHDRAW", .withdrawPrompt),
   ("CHECK_PAYMENT", .checkPaymentPrompt)]

/-- Evaluates one registered lambda filter
`lambda c: is_cb(c.data, Cb.<attr>)`: reading a missing `Cb` attribute
raises `AttributeError` (modelled `Except.error`). -/
def evalRouteFilter (data : Option String) (attr : String) : Except Unit Bool :=
  match cbAttr attr with
  | none => .error ()
  | some name => .ok (isCb data name)

/-- Dispatcher scan over the registered callback routes: first filter that
returns true selects its handler; a filter that raises aborts event
processing with the error. -/
def findCbRoute (data : Option String) :
    List (String × CbHandler) → Except Unit (Option CbHandler)
  | [] => .ok none
  | (attr, h) :: rest =>
    match evalRouteFilter data attr with
    | .error _ => .error ()
    | .ok true => .ok (some h)
    | .ok false => findCbRoute data rest

/-- The FSM-state effect of each callback handler: `cancel_callback` runs
`state.clear()` (`src/handlers.py` line 184), the two prompt handlers run
`set_state` (lines 265 and 308), the rest leave the state alone. -/
def handlerNextState (h : CbHandler) (st : ConvState) : ConvState :=
  match h with
  | .cancelHandler => .idle
  | .withdrawPrompt => .awaitingWithdrawAddress
  | .checkPaymentPrompt => .awaitingPaymentQuery
  | _ => st

/-- The FSM state after a callback event with the given data is processed:
if any route filter raises, no handler runs and the state is untouched. -/
def processCallback (data : Option String) (st : ConvState) : ConvState :=
  match findCbRoute data callbackRoutes with
  | .error _ => st
  | .ok none => st
  | .ok (some h) => handlerNextState h st

/-! ## Webhook ingress and fan-out — `src/webhook_handlers.py`,
`new_deposit_notify` in `src/handlers.py` -/

/-- Outcome of one `bot.send_message` call: delivered, raised
`TelegramBadRequest`, or raised any other exception. -/
inductive SendResult
  | sent
  | badRequest
  | otherExc
deriving DecidableEq

/-- Observable result of the notification fan-out: identities to which a
send was attempted (in order), failures logged by the
`except TelegramBadRequest` clause, and whether an exception escaped the
loop. -/
structure FanOutResult where
  attempts : List String
  logged : List String
  raised : Bool
deriving DecidableEq

/-- Embeds the send loop of `new_deposit_notify` (`src/handlers.py` lines
382–386): only `TelegramBadRequest` is caught and logged; any other
exception propagates and ends the loop. -/
def fanOut (send : String → SendResult) : List String → FanOutResult
  | [] => ⟨[], [], false⟩
  | a :: rest =>
    match send a with
    | .sent =>
      let r := fanOut send rest
      ⟨a :: r.attempts, r.logged, r.raised⟩
    | .badRequest =>
      let r := fanOut send rest
      ⟨a :: r.attempts, a :: r.logged, r.raised⟩
    | .otherExc => ⟨[a], [], true⟩

/-- Python `table.get(key, [])` on the credential table. -/
def dictGetList (table : List (String × List String)) (key : String) : List String :=
  ((table.find? (fun e => e.1 = key)).map Prod.snd).getD []

/-- Embeds `new_deposit_notify` (`src/handlers.py` lines 366–387):
`admins_ids = config.api_tokens.get(merchant_api_token, [])`; an empty
list logs a warning and returns; otherwise the send loop runs. -/
def newDepositNotify (table : List (String × List String)) (token : String)
    (send : String → SendResult) : FanOutResult :=
  let admins := dictGetList table token
  if admins.isEmpty then ⟨[], [], false⟩ else fanOut send admins

/-- Python truthiness of `request.headers.get("X-API-Key")`: `None` and
the empty string are falsy. -/
def pyTruthyOptStr : Option String → Bool
  | none => false
  | some s => s != ""

/-- Embeds `api_key != config.webhooks_api_key` where the configured
secret may be `None` (unset `WEBHOOK_API_KEY`): comparison with `None`
is always unequal for a string. -/
def pyNeOptSecret (k : String) (secret : Option String) : Bool :=
  match secret with
  | none => true
  | some s => k != s

/-- Python `v == "new_deposit"` on a decoded JSON value. -/
def jEqStr (v : J) (s : String) : Bool :=
  match v with
  | .str t => t == s
  | _ => false

/-- Extraction `data['address'], data['amount'], data['new_status'],
data['merchant_api_token']` (`src/webhook_handlers.py` line 21); a
missing key raises `KeyError`, caught by the handler's `except`. -/
def webhookExtract (fields : List (String × J)) : Option (J × J × J × J) :=
  match jGet fields "address", jGet fields "amount",
        jGet fields "new_status", jGet fields "merchant_api_token" with
  | some a, some m, some ns, some tok => some (a, m, ns, tok)
  | _, _, _, _ => none

/-- The HTTP response of the webhook handler together with the fan-out it
performed. -/
structure WebhookOutcome where
  status : Nat
  text : String
  fan : FanOutResult
deriving DecidableEq

/-- Embeds `handle_payment_webhook` (`src/webhook_handlers.py` lines
9–26).  `body = none` models a body `request.json()` fails to parse (→
the `except` clause, 400 "Error").  The secret check answers
403 "Unauthorized" with no fan-out.  A `new_deposit` message runs
`new_deposit_notify`; an exception escaping the fan-out is caught by the
handler's `except` (400 "Error").  Any other message is accepted
unchanged (200 "Success").  A non-dict body raises `AttributeError` at
`data.get` (400 "Error").  An unhashable `merchant_api_token` (a JSON
array or object) makes `dict.get` raise `TypeError` inside
`new_deposit_notify` (→ 400 "Error"); a hashable non-string one simply
misses in the string-keyed credential table (→ 200 "Success", no
sends). -/
def handleWebhook (table : List (String × List String)) (secret : Option String)
    (body : Option J) (apiKey : Option String) (send : String → SendResult) :
    WebhookOutcome :=
  match body with
  | none => ⟨400, "Error", ⟨[], [], false⟩⟩
  | some data =>
    if !pyTruthyOptStr apiKey ||
        (pyTruthyOptStr apiKey && pyNeOptSecret (apiKey.getD "") secret) then
      ⟨403, "Unauthorized", ⟨[], [], false⟩⟩
    else
      match data with
      | .dict fields =>
        if jEqStr ((jGet fields "message").getD (.str "")) "new_deposit" then
          match webhookExtract fields with
          | none => ⟨400, "Error", ⟨[], [], false⟩⟩
          | some (_, _, _, tok) =>
            match tok with
            | .str s =>
              let r := newDepositNotify table s send
              if r.raised then ⟨400, "Error", r⟩ else ⟨200, "Success", r⟩
            | .arr _ => ⟨400, "Error", ⟨[], [], false⟩⟩
            | .dict _ => ⟨400, "Error", ⟨[], [], false⟩⟩
            | _ => ⟨200, "Success", ⟨[], [], false⟩⟩
        else ⟨200, "Success", ⟨[], [], false⟩⟩
      | _ => ⟨400, "Error", ⟨[], [], false⟩⟩

/-- A send oracle for concrete instantiations: every send succeeds. -/
def constSent : String → SendResult := fun _ => .sent

/-- A send oracle where the send to "adminA" raises an exception that is
not a `TelegramBadRequest`. -/
def adminAUnexpectedExc : String → SendResult :=
  fun a => if a = "adminA" then .otherExc else .sent

/-- A send oracle where the send to "adminA" raises `TelegramBadRequest`
and every other send succeeds. -/
def adminABadRequest : String → SendResult :=
  fun a => if a = "adminA" then .badRequest else .sent

/-- A decode oracle standing for `json.loads` failing on every body. -/
def jNoDecode : String → Option J := fun _ => none

/-- A decode oracle standing for `json.loads` decoding every body to
`null`. -/
def jConstNull : String → Option J := fun _ => some J.null

/-! ### Codec lemmas -/

theorem splitSep_ne_nil (sep : Char) (l : List Char) : splitSep sep l ≠ [] := by
  cases l with
  | nil => simp [splitSep]
  | cons c cs => by_cases hc : c = sep <;> simp [splitSep, hc]

theorem splitSep_cons_sep (sep : Char) (r : List Char) :
    splitSep sep (sep :: r) = [] :: splitSep sep r := by
  simp [splitSep]

theorem splitSep_cons_ne (sep c : Char) (hc : c ≠ sep) (r : List Char) :
    splitSep sep (c :: r) =
      (c :: (splitSep sep r).headD []) :: (splitSep sep r).tail := by
  simp [splitSep, hc]

theorem splitSep_no_sep (sep : Char) (x : List Char) (hx : sep ∉ x) :
    splitSep sep x = [x] := by
  induction x with
  | nil => rfl
  | cons c cs ih =>
    have hc : c ≠ sep := fun h => hx (h ▸ List.mem_cons_self c cs)
    have hcs : sep ∉ cs := fun h => hx (List.mem_cons_of_mem c h)
    rw [splitSep_cons_ne sep c hc, ih hcs]
    simp

theorem splitSep_append_sep (sep : Char) (x r : List Char) (hx : sep ∉ x) :
    splitSep sep (x ++ sep :: r) = x :: splitSep sep r := by
  induction x with
  | nil => simpa using splitSep_cons_sep sep r
  | cons c cs ih =>
    have hc : c ≠ sep := fun h => hx (h ▸ List.mem_cons_self c cs)
    have hcs : sep ∉ cs := fun h => hx (List.mem_cons_of_mem c h)
    have := ih hcs
    rw [List.cons_append, splitSep_cons_ne sep c hc, this]
    simp

theorem splitSep_joinSep (sep : Char) (xs : List (List Char))
    (hne : xs ≠ []) (hfree : ∀ x ∈ xs, sep ∉ x) :
    splitSep sep (joinSep sep xs) = xs := by
  induction xs with
  | nil => exact absurd rfl hne
  | cons x rest ih =>
    cases rest with
    | nil =>
      simpa [joinSep] using splitSep_no_sep sep x (hfree x (List.mem_cons_self x []))
    | cons y rest' =>
      have hx : sep ∉ x := hfree x (List.mem_cons_self x (y :: rest'))
      have hrest : ∀ z ∈ y :: rest', sep ∉ z := fun z hz =>
        hfree z (List.mem_cons_of_mem x hz)
      have hjoin : joinSep sep (x :: y :: rest') = x ++ sep :: joinSep sep (y :: rest') := rfl
      rw [hjoin, splitSep_append_sep sep x _ hx, ih (by simp) hrest]

theorem string_eq_of_data_eq (a b : String) (h : a.data = b.data) : a = b := by
  cases a; cases b; exact congrArg String.mk h

theorem isCbPrefixOf_iff_append (t name : String) :
    isCbPrefixOf (some t) name = true ↔ ∃ rest : String, t = name ++ ":" ++ rest := by
  unfold isCbPrefixOf pyStartswith
  rw [Option.getD_some, List.isPrefixOf_iff_prefix]
  constructor
  · rintro ⟨u, hu⟩
    refine ⟨String.mk u, ?_⟩
    apply string_eq_of_data_eq
    rw [String.data_append, String.data_append, ← hu, String.data_append]
  · rintro ⟨rest, hrest⟩
    refine ⟨rest.data, ?_⟩
    rw [hrest, String.data_append, String.data_append, String.data_append]

/-! ### Claim theorems -/

/-- C4: for every `get_json`/`post_json` call that receives an HTTP
response, a 2xx status returns the JSON-decoded body (falling back to the
raw text when decoding fails) and any other status raises
`ZenithionPayApiError` carrying exactly that status and that payload. -/
theorem getJson_classification (decode : String → Option J) (status : Nat)
    (body : String) :
    (200 ≤ status → status ≤ 299 →
      getJson decode status body = .ok (httpRequestJson decode status body).2)
    ∧ (¬ (200 ≤ status ∧ status ≤ 299) →
      getJson decode status body = .apiError status (httpRequestJson decode status body).2)
    ∧ (∀ v, decode body = some v → (httpRequestJson decode status body).2 = .json v)
    ∧ (decode body = none → (httpRequestJson decode status body).2 = .raw body) := by
  refine ⟨?_, ?_, ?_, ?_⟩
  · intro h1 h2
    simp [getJson, httpRequestJson, h1, h2]
  · intro h
    simp [getJson, httpRequestJson, h]
  · intro v hv
    simp [httpRequestJson, hv]
  · intro h
    simp [httpRequestJson, h]

/-- Witness for C4: concrete 200/204/404 responses, with and without a
decodable body. -/
theorem getJson_classification_witness :
    (200 ≤ 200 ∧ 200 ≤ 299) ∧
    getJson jNoDecode 200 "plain" = .ok (.raw "plain") ∧
    getJson jConstNull 204 "x" = .ok (.json J.null) ∧
    ¬ (200 ≤ 404 ∧ 404 ≤ 299) ∧
    getJson jNoDecode 404 "oops" = .apiError 404 (.raw "oops") := by
  refine ⟨by decide, ?_, ?_, by decide, ?_⟩
  · exact (getJson_classification jNoDecode 200 "plain").1 (by decide) (by decide)
  · exact (getJson_classification jConstNull 204 "x").1 (by decide) (by decide)
  · exact (getJson_classification jNoDecode 404 "oops").2.1 (by decide)

/-- C7, code bug: the claim says certificate verification follows the
configured toggle, but `_http_request_json` shadows it with a local
`skip_verify = True`, so an HTTPS request uses an unverified context even
when the configuration (unset `SKIP_VERIFY`, i.e. verification enabled)
demands verification. -/
theorem tls_always_unverified :
    configSkipVerify none = false ∧
    sslContextFor "https://gateway.example/api/v1/merchant/info" =
      some SslMode.unverified := by
  exact ⟨rfl, rfl⟩

/-- C1, code bug: even when the remote would answer `merchant/info` with
an HTTP 2xx response, `start_handler` replies with the
service-unavailable text, because the `get_json` call in
`get_merchant_info_text` passes the keyword arguments
`cache_ttl`/`refresh` that `get_json` does not accept, raising
`TypeError` before any request is issued. -/
theorem startHandler_unavailable_on_2xx (decode : String → Option J)
    (status : Nat) (body : String) (_h1 : 200 ≤ status) (_h2 : status ≤ 299) :
    startHandler decode status body = .serviceUnavailable ∧
    kwargsAccepted getMerchantInfoKwargs = false := by
  exact ⟨rfl, rfl⟩

/-- Witness for C1: a concrete 200 response with a decoded body. -/
theorem startHandler_unavailable_on_2xx_witness :
    (200 ≤ 200 ∧ 200 ≤ 299) ∧
    startHandler jConstNull 200 "{}" = .serviceUnavailable :=
  ⟨by decide,
   (startHandler_unavailable_on_2xx jConstNull 200 "{}" (by decide) (by decide)).1⟩

/-- C2: every free-text message in an `Awaiting*` state that reaches a
terminal action ends with the conversation state `Idle`, regardless of
the remote outcome.  For a non-empty payment query this holds for every
would-be remote response: the `get_json` call in `check_payment_input`
passes the unaccepted keyword argument `cache_ttl` and raises
`TypeError` before any request, so the handler always lands in
`except Exception`, which clears the state (the source's no-clear 404
branch is dead code).  For a withdrawal address of valid format, every
branch of `withdraw_input` — success, below-minimum, generic failure,
`ZenithionPayApiError` of any status, or any other exception — runs
`state.clear()`. -/
theorem awaiting_terminal_always_idle (t : String) (st : ConvState)
    (decode : String → Option J) (status : Nat) (body : String)
    (call : CallOutcome) :
    (pyStrip t ≠ "" →
      (checkPaymentInput (some t) decode status body st).1 = .idle)
    ∧ (tronAddressMatch (pyStrip t) = true →
      (withdrawInput (some t) call st).1 = .idle) := by
  constructor
  · intro hne
    have hcall : callGetJson checkPaymentKwargs decode status body = .otherErr := rfl
    simp [checkPaymentInput, hne, hcall]
  · intro htron
    cases call <;> simp [withdrawInput, htron]

/-- Witness for C2: a non-empty payment query against a remote that would
answer 404, and a valid-format withdrawal address with a 400 outcome —
both end `Idle`. -/
theorem awaiting_terminal_always_idle_witness :
    pyStrip "abc123" ≠ "" ∧
    (checkPaymentInput (some "abc123") jConstNull 404 "{}"
        .awaitingPaymentQuery).1 = ConvState.idle ∧
    tronAddressMatch (pyStrip "T111111111111111111111111111111111") = true ∧
    (withdrawInput (some "T111111111111111111111111111111111")
        (.apiErr 400 (.json J.null)) .awaitingWithdrawAddress).1 = ConvState.idle := by
  refine ⟨by decide, ?_, by decide, ?_⟩
  · exact (awaiting_terminal_always_idle "abc123" .awaitingPaymentQuery jConstNull
      404 "{}" .otherErr).1 (by decide)
  · exact (awaiting_terminal_always_idle "T111111111111111111111111111111111"
      .awaitingWithdrawAddress jConstNull 404 "{}"
      (.apiErr 400 (.json J.null))).2 (by decide)

/-- C3, code bug: the cancel route is registered with the filter
`is_cb(c.data, Cb.BACK_TO_USER_MENU)`, but `Cb` has no attribute
`BACK_TO_USER_MENU` (only `CANCEL = "cancel"`), so the dispatcher scan
raises `AttributeError` and a callback carrying the cancel action never
reaches `cancel_callback`: the conversation state is not cleared in any
`Awaiting*` state, where the claim demands `Idle`. -/
theorem cancel_route_attribute_error :
    cbAttr "BACK_TO_USER_MENU" = none ∧
    cbAttr "CANCEL" = some "cancel" ∧
    findCbRoute (some "cancel") callbackRoutes = .error () ∧
    processCallback (some "cancel") .awaitingWithdrawAddress =
      .awaitingWithdrawAddress ∧
    processCallback (some "cancel") .awaitingPaymentQuery = .awaitingPaymentQuery := by
  exact ⟨rfl, rfl, rfl, rfl, rfl⟩

/-- C5: a parsed webhook body with an absent `X-API-Key` header, or one
not exactly equal to the configured secret, is answered with the constant
403 "Unauthorized" response and no notification fan-out. -/
theorem webhook_rejects_bad_secret (table : List (String × List String))
    (secret : Option String) (data : J) (apiKey : Option String)
    (send : String → SendResult)
    (h : apiKey = none ∨ ∃ k, apiKey = some k ∧ some k ≠ secret) :
    handleWebhook table secret (some data) apiKey send =
      ⟨403, "Unauthorized", ⟨[], [], false⟩⟩ := by
  rcases h with h | ⟨k, hk, hne⟩
  · subst h
    simp [handleWebhook, pyTruthyOptStr]
  · subst hk
    by_cases hk0 : k = ""
    · subst hk0
      simp [handleWebhook, pyTruthyOptStr]
    · have hne' : pyNeOptSecret k secret = true := by
        cases secret with
        | none => rfl
        | some s =>
          have : k ≠ s := fun he => hne (by rw [he])
          simp [pyNeOptSecret, bne_iff_ne, this]
      simp [handleWebhook, pyTruthyOptStr, bne_iff_ne, hk0, hne']

/-- Witness for C5: a concrete request with a parsed body and a wrong
header value. -/
theorem webhook_rejects_bad_secret_witness :
    ((some "wrong" : Option String) = none ∨
      ∃ k, (some "wrong" : Option String) = some k ∧ some k ≠ some "secret") ∧
    handleWebhook [] (some "secret") (some (J.dict [])) (some "wrong") constSent =
      ⟨403, "Unauthorized", ⟨[], [], false⟩⟩ := by
  refine ⟨Or.inr ⟨"wrong", rfl, by decide⟩, ?_⟩
  exact webhook_rejects_bad_secret [] (some "secret") (J.dict []) (some "wrong")
    constSent (Or.inr ⟨"wrong", rfl, by decide⟩)

/-- Counterexample to C6: with two enrolled identities, a send to the
first that raises an exception other than `TelegramBadRequest` escapes
the fan-out loop (`raised = true`) and the second identity is never
attempted — the claim says a failure is never raised and does not prevent
the remaining sends. -/
theorem fanOut_unexpected_abort :
    (newDepositNotify [("tok", ["adminA", "adminB"])] "tok" adminAUnexpectedExc).raised
        = true ∧
    (newDepositNotify [("tok", ["adminA", "adminB"])] "tok" adminAUnexpectedExc).attempts
        = ["adminA"] := by
  exact ⟨rfl, rfl⟩

/-- C6 as amended: provided every failing send raises
`TelegramBadRequest` (the only exception the loop catches), exactly one
send is attempted per enrolled identity in order, each failure is logged
and not raised, and no failure prevents the remaining attempts. -/
theorem fanOut_isolation_caught (table : List (String × List String))
    (token : String) (send : String → SendResult)
    (h : ∀ a ∈ dictGetList table token, send a ≠ .otherExc) :
    newDepositNotify table token send =
      ⟨dictGetList table token,
       (dictGetList table token).filter (fun a => send a == .badRequest),
       false⟩ := by
  have main : ∀ l : List String, (∀ a ∈ l, send a ≠ .otherExc) →
      fanOut send l = ⟨l, l.filter (fun a => send a == .badRequest), false⟩ := by
    intro l
    induction l with
    | nil => intro _; rfl
    | cons a rest ih =>
      intro hl
      have ha := hl a (List.mem_cons_self a rest)
      have hrest : ∀ b ∈ rest, send b ≠ .otherExc := fun b hb =>
        hl b (List.mem_cons_of_mem a hb)
      cases hsend : send a with
      | sent => simp [fanOut, hsend, ih hrest, List.filter_cons]
      | badRequest => simp [fanOut, hsend, ih hrest, List.filter_cons]
      | otherExc => exact absurd hsend ha
  cases hlist : dictGetList table token with
  | nil => simp [newDepositNotify, hlist]
  | cons a rest =>
    have h' : ∀ x ∈ a :: rest, send x ≠ .otherExc := hlist ▸ h
    simp [newDepositNotify, hlist, main (a :: rest) h']

/-- Witness for C6 (amended): two enrolled identities, the first send
failing with `TelegramBadRequest` — both identities attempted, the
failure logged, nothing raised. -/
theorem fanOut_isolation_caught_witness :
    (∀ a ∈ dictGetList [("tok", ["adminA", "adminB"])] "tok",
      adminABadRequest a ≠ SendResult.otherExc) ∧
    newDepositNotify [("tok", ["adminA", "adminB"])] "tok" adminABadRequest =
      ⟨["adminA", "adminB"], ["adminA"], false⟩ := by
  refine ⟨by decide, ?_⟩
  have h := fanOut_isolation_caught [("tok", ["adminA", "adminB"])] "tok"
    adminABadRequest (by decide)
  exact h.trans (by decide)

/-- Counterexample to C8: the claim demands
`hasActionPrefix(name, name) = true`, but `is_cb_prefix` tests only
`startswith(name + ":")`, so a token exactly equal to the action name is
rejected. -/
theorem isCbPrefixOf_equal_token_false :
    isCbPrefixOf (some "payments_page") "payments_page" = false := by
  decide

/-- C8 as amended: `is_cb_prefix(token, name)` is true exactly when the
token starts with `name` followed by the separator ":" (the equality case
belongs to the separate `is_cb`); the two concrete examples of the claim
hold. -/
theorem isCbPrefixOf_characterization :
    (∀ t name : String, isCbPrefixOf (some t) name = true ↔
      ∃ rest : String, t = name ++ ":" ++ rest) ∧
    isCbPrefixOf (some "payments_page:last:3") "payments_page" = true ∧
    isCbPrefixOf (some "payments_page2") "payments_page" = false := by
  exact ⟨isCbPrefixOf_iff_append, by decide, by decide⟩

/-- C9: for components free of the separator ":", decoding an encoded
token returns exactly the original pair:
`unpack(pack(name, *args)) == (name, list(args))`. -/
theorem unpack_pack_roundtrip (name : List Char) (args : List (List Char))
    (h₁ : ':' ∉ name) (h₂ : ∀ a ∈ args, ':' ∉ a) :
    unpack (some (pack name args)) = (name, args) := by
  have hfree : ∀ x ∈ name :: args, ':' ∉ x := by
    intro x hx
    rcases List.mem_cons.mp hx with h | h
    · exact h ▸ h₁
    · exact h₂ x h
  simp [unpack, pack, splitSep_joinSep ':' (name :: args) (by simp) hfree]

/-- Witness for C9: the concrete token `foo:bar:42`. -/
theorem unpack_pack_roundtrip_witness :
    (':' ∉ ("foo" : String).data) ∧
    (∀ a ∈ [("bar" : String).data, ("42" : String).data], ':' ∉ a) ∧
    unpack (some (pack ("foo" : String).data
        [("bar" : String).data, ("42" : String).data])) =
      (("foo" : String).data, [("bar" : String).data, ("42" : String).data]) :=
  ⟨by decide, by decide, unpack_pack_roundtrip _ _ (by decide) (by decide)⟩

/-- C10: `get_api_token` is total and deterministic: a `None` or empty
identity yields `None`; otherwise the result is the credential of the
first entry of the table, in insertion order, whose identity list
contains the identity — `None` when no entry matches — even when the
identity is enrolled under several credentials. -/
theorem getApiToken_first_match (table : List (String × List String)) (u : String) :
    getApiToken table none = none ∧
    getApiToken table (some "") = none ∧
    (u ≠ "" → getApiToken table (some u) =
      (table.find? (fun e => u ∈ e.2)).map Prod.fst) := by
  refine ⟨rfl, rfl, ?_⟩
  intro hu
  show (if u = "" then none else lookupLoop table u) = _
  rw [if_neg hu]
  induction table with
  | nil => rfl
  | cons e rest ih =>
    obtain ⟨tok, ids⟩ := e
    by_cases hmem : u ∈ ids
    · simp [lookupLoop, hmem, List.find?_cons]
    · simp [lookupLoop, hmem, List.find?_cons, ih]

/-- Witness for C10: an identity enrolled under two credentials resolves
to the first in insertion order. -/
theorem getApiToken_first_match_witness :
    ("u1" : String) ≠ "" ∧
    getApiToken [("tokA", ["u1"]), ("tokB", ["u1", "u2"])] (some "u1") =
      some "tokA" := by
  refine ⟨by decide, ?_⟩
  have h := (getApiToken_first_match [("tokA", ["u1"]), ("tokB", ["u1", "u2"])]
    "u1").2.2 (by decide)
  exact h.trans (by decide)

end ZenithionBot

